import Mathlib

/-
Verification of the servercommand repository against its specification.

The repository consists of four Python files:
  * src/app/main.py      - a FastAPI application with a POST /実行 endpoint that
                           runs a shell command via subprocess.run and returns the
                           result as JSON, plain-text preview, or a download,
                           plus a static HTML UI at /ui;
  * src/app/settings.py  - a pydantic-settings class with redis/queue names,
                           cmd_timeout and max_bytes fields;
  * src/app/tasks.py     - run_command, a queue task wrapping subprocess.run;
  * src/worker.py        - an RQ worker loop (pure I/O wiring, not modelled).

The embedding below models the data and control flow of these files: the
subprocess.run keyword arguments become an explicit call record, the operating
system's contribution (process exit, timeout, launch failure, raw output bytes)
becomes an explicit outcome value, and Python exceptions become an Except layer.
-/

/-- Settings, from src/app/settings.py: the pydantic-settings class with its
field defaults (environment overrides are out of scope of the model). -/
structure Settings where
  redis_url : String := "redis://redis:6379/0"
  rq_queue_name : String := "default"
  cmd_timeout : Int := 5
  max_bytes : Int := 200000
  deriving DecidableEq

/-- The module-level `settings = Settings()` object of src/app/settings.py. -/
def settings : Settings := {}

/-- UTF-8 byte size of a list of characters; models `len(text.encode("utf-8"))`. -/
def utf8BytesOf : List Char → Nat
  | [] => 0
  | c :: cs => c.utf8Size + utf8BytesOf cs

/-- UTF-8 byte size of a string. -/
def utf8ByteLen (s : String) : Nat := utf8BytesOf s.data

/-- Strict UTF-8 decoding of a byte list, models Python's `bytes.decode("utf-8")`
with the default `errors="strict"`: `none` is a raised UnicodeDecodeError.
Rejects continuation bytes out of place, overlong encodings (leading bytes
0xC0/0xC1, and out-of-range second bytes after 0xE0/0xF0), surrogate code
points (after 0xED) and code points above U+10FFFF (after 0xF4). -/
def utf8DecodeStrict : List Nat → Option (List Char)
  | [] => some []
  | b :: bs =>
    if b < 0x80 then
      (utf8DecodeStrict bs).map (fun cs => Char.ofNat b :: cs)
    else if b < 0xC2 then
      none
    else
      match bs with
      | [] => none
      | b2 :: rest2 =>
        if b < 0xE0 then
          if 0x80 ≤ b2 ∧ b2 < 0xC0 then
            (utf8DecodeStrict rest2).map
              (fun cs => Char.ofNat ((b - 0xC0) * 0x40 + (b2 - 0x80)) :: cs)
          else none
        else
          match rest2 with
          | [] => none
          | b3 :: rest3 =>
            if b < 0xF0 then
              let lo := if b = 0xE0 then 0xA0 else 0x80
              let hi := if b = 0xED then 0xA0 else 0xC0
              if (lo ≤ b2 ∧ b2 < hi) ∧ 0x80 ≤ b3 ∧ b3 < 0xC0 then
                (utf8DecodeStrict rest3).map
                  (fun cs =>
                    Char.ofNat ((b - 0xE0) * 0x1000 + (b2 - 0x80) * 0x40 + (b3 - 0x80)) :: cs)
              else none
            else
              match rest3 with
              | [] => none
              | b4 :: rest4 =>
                if b < 0xF5 then
                  let lo := if b = 0xF0 then 0x90 else 0x80
                  let hi := if b = 0xF4 then 0x90 else 0xC0
                  if (lo ≤ b2 ∧ b2 < hi) ∧ (0x80 ≤ b3 ∧ b3 < 0xC0) ∧ 0x80 ≤ b4 ∧ b4 < 0xC0 then
                    (utf8DecodeStrict rest4).map
                      (fun cs =>
                        Char.ofNat
                          ((b - 0xF0) * 0x40000 + (b2 - 0x80) * 0x1000
                            + (b3 - 0x80) * 0x40 + (b4 - 0x80)) :: cs)
                  else none
                else none

/-- The keyword arguments of a `subprocess.run` call as made by this repository.
`cwd` is an explicit field so that the absence of the `cwd` keyword argument in
the source (the child inherits the server process's working directory) is
visible as `none`. `encoding`/`errors` are never passed by the source, so text
capture always uses the strict decoder above. -/
structure SubprocessCall where
  args : String
  shell : Bool
  captureOutput : Bool
  text : Bool
  timeout : Int
  cwd : Option String
  deriving DecidableEq

/-- A completed process as returned by `subprocess.run` (text mode). -/
structure CompletedProcess where
  returncode : Int
  stdout : String
  stderr : String
  deriving DecidableEq

/-- What the operating system reports for one child process before decoding. -/
structure RawProcessResult where
  returncode : Int
  stdoutBytes : List Nat
  stderrBytes : List Nat
  deriving DecidableEq

/-- The environment's contribution to one `subprocess.run` call: the process
finished in time with raw output bytes, exceeded the timeout, or could not be
launched at all. -/
inductive OsOutcome where
  | finished : RawProcessResult → OsOutcome
  | timedOut : OsOutcome
  | launchError : String → OsOutcome
  deriving DecidableEq

/-- The Python exceptions a `subprocess.run` call in this repository can raise. -/
inductive PyError where
  | timeoutExpired : String → Int → PyError
  | oserror : String → PyError
  | unicodeDecodeError : String → PyError
  deriving DecidableEq

/-- Semantics of `subprocess.run(args, shell=True, capture_output=True,
text=True, timeout=t)` given the environment's outcome: a timeout raises
TimeoutExpired, a launch failure raises OSError, and text capture decodes both
streams strictly (no `errors=` argument is passed), raising UnicodeDecodeError
on malformed bytes. -/
def subprocessRun (call : SubprocessCall) (os : OsOutcome) : Except PyError CompletedProcess :=
  match os with
  | .timedOut => .error (.timeoutExpired call.args call.timeout)
  | .launchError msg => .error (.oserror msg)
  | .finished raw =>
    match utf8DecodeStrict raw.stdoutBytes with
    | none => .error (.unicodeDecodeError "invalid UTF-8 byte in captured stdout")
    | some outChars =>
      match utf8DecodeStrict raw.stderrBytes with
      | none => .error (.unicodeDecodeError "invalid UTF-8 byte in captured stderr")
      | some errChars => .ok ⟨raw.returncode, ⟨outChars⟩, ⟨errChars⟩⟩

/-- The request body model of src/app/main.py: class CommandRequest with fields
コマンド (required) and タイムアウト秒 (default 5, ge=1, le=60). -/
structure CommandRequest where
  «コマンド» : String
  «タイムアウト秒» : Int
  deriving DecidableEq

/-- Validation failures pydantic reports for CommandRequest. -/
inductive ValidationError where
  | missingCommand
  | timeoutOutOfRange
  deriving DecidableEq

/-- Pydantic validation of a CommandRequest body: コマンド is required;
タイムアウト秒 defaults to 5 when absent and must satisfy ge=1 and le=60,
otherwise the request is rejected with 422 before the endpoint runs. -/
def validateCommandRequest («コマンド» : Option String) («タイムアウト秒» : Option Int) :
    Except ValidationError CommandRequest :=
  match «コマンド» with
  | none => .error .missingCommand
  | some c =>
    let t := «タイムアウト秒».getD 5
    if 1 ≤ t ∧ t ≤ 60 then .ok ⟨c, t⟩ else .error .timeoutOutOfRange

/-- The three values of the 形式 query parameter of the /実行 endpoint. -/
inductive ReturnFormat where
  | json
  | preview
  | download
  deriving DecidableEq

/-- The JSON object the /実行 endpoint returns: 終了コード, 標準出力, 標準エラー.
The exit-code field is an Option so that a JSON null is representable. -/
structure JsonBody where
  «終了コード» : Option Int
  «標準出力» : String
  «標準エラー» : String
  deriving DecidableEq

/-- A response of the /実行 endpoint: a JSONResponse or a plain-text Response
with media type and optional Content-Disposition header. -/
inductive ApiResponse where
  | jsonResponse : JsonBody → ApiResponse
  | textResponse : String → String → Option String → ApiResponse
  deriving DecidableEq

/-- The subprocess.run call made by the 実行 endpoint (src/app/main.py):
`subprocess.run(req.コマンド, shell=True, capture_output=True, text=True,
timeout=req.タイムアウト秒)` — no `cwd` keyword argument is passed. -/
def «実行Call» (req : CommandRequest) : SubprocessCall :=
  { args := req.«コマンド», shell := true, captureOutput := true, text := true,
    timeout := req.«タイムアウト秒», cwd := none }

/-- The body of the 実行 endpoint after the subprocess.run expression: the
try/except catches only subprocess.TimeoutExpired (returning the timeout body
per 形式); every other exception propagates; a completed process is rendered
per 形式. -/
def «実行Resp» (req : CommandRequest) (fmt : ReturnFormat)
    (runResult : Except PyError CompletedProcess) : Except PyError ApiResponse :=
  match runResult with
  | .error (.timeoutExpired _ _) =>
    let body := toString req.«タイムアウト秒» ++ "秒を超えてタイムアウトしました。"
    match fmt with
    | .download =>
      .ok (.textResponse body "text/plain; charset=utf-8"
        (some "attachment; filename=\"timeout.txt\""))
    | .preview => .ok (.textResponse body "text/plain; charset=utf-8" none)
    | .json => .ok (.jsonResponse ⟨some (-1), "", body⟩)
  | .error e => .error e
  | .ok r =>
    let body := "終了コード: " ++ toString r.returncode ++ "\n標準出力:\n" ++ r.stdout
      ++ "\n標準エラー:\n" ++ r.stderr
    match fmt with
    | .download =>
      .ok (.textResponse body "text/plain; charset=utf-8"
        (some "attachment; filename=\"result.txt\""))
    | .preview => .ok (.textResponse body "text/plain; charset=utf-8" none)
    | .json => .ok (.jsonResponse ⟨some r.returncode, r.stdout, r.stderr⟩)

/-- The 実行 endpoint of src/app/main.py, as a function of the validated
request, the 形式 query parameter and the environment's outcome for the one
subprocess.run call it makes. An `Except.error` value is an exception that
propagates uncaught out of the endpoint. -/
def «実行» (req : CommandRequest) (fmt : ReturnFormat) (os : OsOutcome) :
    Except PyError ApiResponse :=
  «実行Resp» req fmt (subprocessRun («実行Call» req) os)

/-- The 実行 endpoint with the module-global settings object made explicit:
src/app/main.py never imports or reads src/app/settings.py, which the unused
parameter records. -/
def «実行Env» (_s : Settings) (req : CommandRequest) (fmt : ReturnFormat)
    (os : OsOutcome) : Except PyError ApiResponse :=
  «実行» req fmt os

/-- Python `str(e)` for the exceptions modelled here (the exact TimeoutExpired
wording follows CPython's subprocess module). -/
def pyErrorStr : PyError → String
  | .timeoutExpired cmd t =>
    "Command '" ++ cmd ++ "' timed out after " ++ toString t ++ " seconds"
  | .oserror m => m
  | .unicodeDecodeError m => m

/-- The dict run_command (src/app/tasks.py) returns: either the keys stdout,
stderr, returncode exactly, or the single key error. -/
inductive RunCommandResult where
  | result : String → String → Int → RunCommandResult
  | error : String → RunCommandResult
  deriving DecidableEq

/-- The subprocess.run call made by run_command (src/app/tasks.py):
`subprocess.run(command, shell=True, capture_output=True, text=True, timeout=5)`
— the timeout is the literal 5, and no `cwd` keyword argument is passed. -/
def run_commandCall (command : String) : SubprocessCall :=
  { args := command, shell := true, captureOutput := true, text := true,
    timeout := 5, cwd := none }

/-- run_command of src/app/tasks.py: wraps its subprocess.run call in a
catch-all `except Exception as e: return {"error": str(e)}`. -/
def run_command (command : String) (os : OsOutcome) : RunCommandResult :=
  match subprocessRun (run_commandCall command) os with
  | .ok r => .result r.stdout r.stderr r.returncode
  | .error e => .error (pyErrorStr e)

/-- A subprocess call executes inside the sandbox rooted at `root` when it
passes an explicit working directory equal to the root or a strict descendant
of it (paths compared textually on their canonical forms). -/
def withinSandbox (root : String) (call : SubprocessCall) : Prop :=
  ∃ d, call.cwd = some d ∧ (d = root ∨ (root ++ "/").isPrefixOf d)

/-- ASCII whitespace, as stripped by Python's str.strip(). -/
def isPySpace (c : Char) : Bool :=
  c = ' ' || c = '\t' || c = '\n' || c = '\x0d' || c = '\x0b' || c = '\x0c'

/-- Surrounding-whitespace trimming of a string, models Python's str.strip(). -/
def pyStrip (s : String) : String :=
  ⟨((s.data.dropWhile (fun c => isPySpace c)).reverse.dropWhile
      (fun c => isPySpace c)).reverse⟩

/-- Modelled from the spec: the repository contains no tutorial implementation,
so the Tutorial State Machine of spec §3/§4.4 is modelled from the spec's words.
One step of the fixed ordered tutorial sequence: a human-readable instruction
and the exact expected command text. -/
structure TutorialStep where
  instruction : String
  expected : String
  deriving DecidableEq

/-- Modelled from the spec: the states of the Tutorial State Machine (§4.4):
NotStarted, InProgress(stepIndex), Completed. -/
inductive TutorialState where
  | notStarted
  | inProgress : Nat → TutorialState
  | completed
  deriving DecidableEq

/-- Modelled from the spec: the verdict a tutorial submission produces (§4.4,
§6): whether the trimmed input matched the expected command, the hint returned
(next step's instruction on a match, the unchanged step's expected command on a
mismatch), and the derived completed flag. -/
structure SubmitVerdict where
  matched : Bool
  hint : Option String
  completed : Bool
  deriving DecidableEq

/-- Modelled from the spec: evaluation of a submission at step index `i`
(§4.4): the trimmed input is compared with the expected command of the step at
the current index by exact string equality; a match at a non-final index
increments the index and returns the new step's instruction as hint; a match at
the final index yields Completed; a mismatch leaves the index unchanged and
returns the unchanged step's expected command as hint. -/
def tutorialStepCheck (steps : List TutorialStep) (i : Nat) (commandText : String) :
    TutorialState × SubmitVerdict :=
  match steps.get? i with
  | none => (.inProgress i, ⟨false, none, false⟩)
  | some step =>
    if pyStrip commandText = step.expected then
      if i + 1 < steps.length then
        (.inProgress (i + 1), ⟨true, (steps.get? (i + 1)).map TutorialStep.instruction, false⟩)
      else
        (.completed, ⟨true, none, true⟩)
    else
      (.inProgress i, ⟨false, some step.expected, false⟩)

/-- Modelled from the spec: submit(commandText) of the Tutorial State Machine
(§4.4). From NotStarted an implicit start() at index 0 occurs; from
InProgress(i) the step at index i is checked; Completed is terminal. -/
def tutorialSubmit (steps : List TutorialStep) (st : TutorialState) (commandText : String) :
    TutorialState × SubmitVerdict :=
  match st with
  | .completed => (.completed, ⟨false, none, true⟩)
  | .notStarted => tutorialStepCheck steps 0 commandText
  | .inProgress i => tutorialStepCheck steps i commandText

/-- A concrete fixed tutorial sequence used to instantiate the tutorial
theorems on concrete inputs. -/
def tutorialStepsW : List TutorialStep :=
  [⟨"カレントディレクトリを表示してください", "pwd"⟩,
   ⟨"ファイル一覧を表示してください", "ls"⟩]

/-- A string of 400001 ASCII characters, larger than any 200000-byte budget. -/
def bigStdout : String := ⟨List.replicate 400001 'a'⟩

/-- The UTF-8 byte size of a replicated ASCII character list is its length. -/
theorem utf8BytesOf_replicate (n : Nat) : utf8BytesOf (List.replicate n 'a') = n := by
  induction n with
  | zero => rfl
  | succ k ih =>
    rw [List.replicate_succ]
    simp only [utf8BytesOf, ih]
    rw [show ('a'.utf8Size) = 1 from rfl]
    omega

/-- Claim C1, counterexample: the subprocess call the 実行 endpoint makes for a
plain `pwd` request carries no working directory at all, so it is not confined
to a sandbox root such as /tmp/sandbox: the code has no changeDirectory
operation and performs no sandbox check. -/
theorem exec_call_not_within_sandbox_cex :
    ¬ withinSandbox "/tmp/sandbox" («実行Call» ⟨"pwd", 5⟩) := by
  rintro ⟨d, hd, -⟩
  exact Option.noConfusion hd

/-- Claim C1, amended: for every request and every candidate sandbox root, the
実行 endpoint invokes subprocess.run with no cwd argument (the child inherits
the server process's working directory), hence no command execution is confined
to any sandbox root. -/
theorem exec_call_cwd_none (req : CommandRequest) (root : String) :
    («実行Call» req).cwd = none ∧ ¬ withinSandbox root («実行Call» req) := by
  refine ⟨rfl, ?_⟩
  rintro ⟨d, hd, -⟩
  exact Option.noConfusion hd

/-- Claim C2, counterexample: when a 5-second request times out, the JSON
result reports 終了コード -1, not a null exit code. -/
theorem exec_timeout_exit_code_cex :
    «実行» ⟨"sleep 10", 5⟩ ReturnFormat.json OsOutcome.timedOut
      = Except.ok (ApiResponse.jsonResponse
          ⟨some (-1), "", "5秒を超えてタイムアウトしました。"⟩)
    ∧ (some (-1) : Option Int) ≠ none :=
  ⟨rfl, by simp⟩

/-- Claim C2, amended: on timeout the JSON result has exit code -1 (a sentinel,
not null), empty standard output, and a standard-error message that states the
configured timeout value; the preview format returns the same message as plain
text. -/
theorem exec_timeout_response_eq (req : CommandRequest) :
    «実行» req ReturnFormat.json OsOutcome.timedOut
      = Except.ok (ApiResponse.jsonResponse
          ⟨some (-1), "", toString req.«タイムアウト秒» ++ "秒を超えてタイムアウトしました。"⟩)
    ∧ «実行» req ReturnFormat.preview OsOutcome.timedOut
      = Except.ok (ApiResponse.textResponse
          (toString req.«タイムアウト秒» ++ "秒を超えてタイムアウトしました。")
          "text/plain; charset=utf-8" none) :=
  ⟨rfl, rfl⟩

/-- Claim C3, counterexample: the subprocess call for an `ls -l` request passes
no working directory whatsoever, so in particular no sandbox current directory
is used as the child's working directory. -/
theorem exec_call_no_explicit_cwd_cex :
    ¬ ∃ d, («実行Call» ⟨"ls -l", 5⟩).cwd = some d := by
  rintro ⟨d, hd⟩
  exact Option.noConfusion hd

/-- Claim C3, amended: every command is run through a shell interpreter
(shell=True), but with no cwd argument: the child process inherits the server
process's working directory instead of any sandbox directory. -/
theorem exec_call_shell_inherited_cwd (req : CommandRequest) :
    («実行Call» req).shell = true ∧ («実行Call» req).cwd = none :=
  ⟨rfl, rfl⟩

/-- Claim C4, counterexample: a launch failure other than a timeout is not
converted into a result value: the 実行 endpoint propagates the exception
uncaught (its try/except catches only subprocess.TimeoutExpired). -/
theorem exec_launch_failure_propagates_cex :
    «実行» ⟨"pwd", 5⟩ ReturnFormat.json (OsOutcome.launchError "interpreter unavailable")
      = Except.error (PyError.oserror "interpreter unavailable")
    ∧ ¬ ∃ resp,
        «実行» ⟨"pwd", 5⟩ ReturnFormat.json (OsOutcome.launchError "interpreter unavailable")
          = Except.ok resp := by
  refine ⟨rfl, ?_⟩
  rintro ⟨resp, hresp⟩
  rw [show «実行» ⟨"pwd", 5⟩ ReturnFormat.json (OsOutcome.launchError "interpreter unavailable")
      = Except.error (PyError.oserror "interpreter unavailable") from rfl] at hresp
  exact Except.noConfusion hresp

/-- Claim C4, amended: the 実行 endpoint catches only TimeoutExpired, so every
other launch failure propagates uncaught to the caller; run_command in
src/app/tasks.py, by contrast, catches every exception and returns an error
dict. -/
theorem exec_uncaught_vs_run_command :
    (∀ (req : CommandRequest) (fmt : ReturnFormat) (msg : String),
      «実行» req fmt (OsOutcome.launchError msg) = Except.error (PyError.oserror msg))
    ∧ (∀ command msg : String,
      run_command command (OsOutcome.launchError msg) = RunCommandResult.error msg) :=
  ⟨fun _ _ _ => rfl, fun _ _ => rfl⟩

/-- Claim C5, counterexample: the JSON response of the 実行 endpoint includes a
400001-byte standard output verbatim, which exceeds twice the configured
settings.max_bytes budget of 200000 bytes: no capping is applied. -/
theorem exec_json_output_uncapped_cex :
    «実行Resp» ⟨"yes", 5⟩ ReturnFormat.json (Except.ok ⟨0, bigStdout, ""⟩)
      = Except.ok (ApiResponse.jsonResponse ⟨some 0, bigStdout, ""⟩)
    ∧ (utf8ByteLen bigStdout : Int) > 2 * settings.max_bytes := by
  refine ⟨rfl, ?_⟩
  rw [show utf8ByteLen bigStdout = 400001 from utf8BytesOf_replicate 400001]
  rw [show settings.max_bytes = 200000 from rfl]
  norm_num

/-- Claim C5, amended: src/app/main.py applies no output capping at all: the
JSON response carries the captured standard output and standard error verbatim
for every completed process, and settings.max_bytes is never consulted. -/
theorem exec_json_output_verbatim (req : CommandRequest) (r : CompletedProcess) :
    «実行Resp» req ReturnFormat.json (Except.ok r)
      = Except.ok (ApiResponse.jsonResponse ⟨some r.returncode, r.stdout, r.stderr⟩) :=
  rfl

/-- Claim C6 (spec-modelled): at every step index i of the tutorial sequence,
submitting text whose trimmed form equals step i's expected command advances
the index to i+1 and returns the new step's instruction as hint (or, at the
final index, transitions to Completed with completed = true), and submitting
any other text leaves the index unchanged and returns the unchanged step's
expected command as the hint. -/
theorem tutorial_submit_advance_and_hint (steps : List TutorialStep) (i : Nat)
    (h : i < steps.length) (text : String) :
    (pyStrip text = (steps.get ⟨i, h⟩).expected →
      (i + 1 < steps.length →
        tutorialSubmit steps (.inProgress i) text
          = (.inProgress (i + 1),
             ⟨true, (steps.get? (i + 1)).map TutorialStep.instruction, false⟩))
      ∧ (i + 1 = steps.length →
        tutorialSubmit steps (.inProgress i) text = (.completed, ⟨true, none, true⟩)))
    ∧ (pyStrip text ≠ (steps.get ⟨i, h⟩).expected →
      tutorialSubmit steps (.inProgress i) text
        = (.inProgress i, ⟨false, some (steps.get ⟨i, h⟩).expected, false⟩)) := by
  have hg : steps.get? i = some (steps.get ⟨i, h⟩) := List.get?_eq_get h
  simp only [tutorialSubmit, tutorialStepCheck, hg]
  constructor
  · intro hm
    rw [if_pos hm]
    refine ⟨fun hlt => ?_, fun heq => ?_⟩
    · rw [if_pos hlt]
    · rw [if_neg (by omega)]
  · intro hm
    rw [if_neg hm]

/-- Witness for claim C6: on the concrete two-step sequence, submitting
" pwd " at step 0 advances to step 1 and hints the next instruction. -/
theorem tutorial_submit_advance_and_hint_witness :
    tutorialSubmit tutorialStepsW (.inProgress 0) " pwd "
      = (.inProgress 1,
         ⟨true, (tutorialStepsW.get? 1).map TutorialStep.instruction, false⟩) :=
  ((tutorial_submit_advance_and_hint tutorialStepsW 0 (by decide) " pwd ").1
    (by decide)).1 (by decide)

/-- Claim C7: pydantic validation of CommandRequest rejects every timeout
outside [1,60] before the endpoint runs, defaults タイムアウト秒 to 5 when it
is absent, and the subprocess.run call is always invoked with the validated
timeout, hence with a value in [1,60]. -/
theorem validated_timeout_in_range :
    (∀ (cOpt : Option String) (tOpt : Option Int) (req : CommandRequest),
      validateCommandRequest cOpt tOpt = Except.ok req →
        1 ≤ req.«タイムアウト秒» ∧ req.«タイムアウト秒» ≤ 60
        ∧ («実行Call» req).timeout = req.«タイムアウト秒»)
    ∧ (∀ c : String, validateCommandRequest (some c) none = Except.ok ⟨c, 5⟩) := by
  constructor
  · intro cOpt tOpt req hok
    cases cOpt with
    | none => exact absurd hok (by simp [validateCommandRequest])
    | some c =>
      by_cases hc : 1 ≤ tOpt.getD 5 ∧ tOpt.getD 5 ≤ 60
      · simp only [validateCommandRequest, if_pos hc, Except.ok.injEq] at hok
        cases hok
        exact ⟨hc.1, hc.2, rfl⟩
      · simp only [validateCommandRequest, if_neg hc] at hok
        exact Except.noConfusion hok
  · intro c
    rfl

/-- Witness for claim C7: the request body {コマンド: "pwd", タイムアウト秒: 7}
validates, and the resulting subprocess call carries the in-range timeout 7. -/
theorem validated_timeout_in_range_witness :
    1 ≤ (⟨"pwd", 7⟩ : CommandRequest).«タイムアウト秒»
    ∧ (⟨"pwd", 7⟩ : CommandRequest).«タイムアウト秒» ≤ 60
    ∧ («実行Call» (⟨"pwd", 7⟩ : CommandRequest)).timeout
        = (⟨"pwd", 7⟩ : CommandRequest).«タイムアウト秒» :=
  validated_timeout_in_range.1 (some "pwd") (some 7) ⟨"pwd", 7⟩ rfl

/-- Claim C8, counterexample: a completed process whose standard output is the
single malformed byte 0xFF makes the 実行 endpoint raise UnicodeDecodeError
(text capture decodes strictly, since no errors argument is passed), and the
exception propagates instead of being replaced. -/
theorem exec_strict_decode_raises_cex :
    «実行» ⟨"cat data.bin", 5⟩ ReturnFormat.json (OsOutcome.finished ⟨0, [255], []⟩)
      = Except.error (PyError.unicodeDecodeError "invalid UTF-8 byte in captured stdout")
    ∧ ¬ ∃ resp,
        «実行» ⟨"cat data.bin", 5⟩ ReturnFormat.json (OsOutcome.finished ⟨0, [255], []⟩)
          = Except.ok resp := by
  refine ⟨rfl, ?_⟩
  rintro ⟨resp, hresp⟩
  rw [show «実行» ⟨"cat data.bin", 5⟩ ReturnFormat.json (OsOutcome.finished ⟨0, [255], []⟩)
      = Except.error (PyError.unicodeDecodeError "invalid UTF-8 byte in captured stdout")
      from rfl] at hresp
  exact Except.noConfusion hresp

/-- Claim C8, amended: captured output is decoded with the strict default (no
errors="replace"), so every raw standard output that is not valid UTF-8 makes
the 実行 endpoint raise UnicodeDecodeError, which it does not catch. -/
theorem exec_capture_raises_on_malformed (req : CommandRequest) (fmt : ReturnFormat)
    (raw : RawProcessResult) (h : utf8DecodeStrict raw.stdoutBytes = none) :
    «実行» req fmt (OsOutcome.finished raw)
      = Except.error (PyError.unicodeDecodeError "invalid UTF-8 byte in captured stdout") := by
  simp [«実行», subprocessRun, «実行Resp», h]

/-- Witness for claim C8's amended theorem: the stray continuation byte 0x80 in
standard output is rejected by the strict decoder and the exception propagates. -/
theorem exec_capture_raises_on_malformed_witness :
    «実行» ⟨"cat moji.bin", 5⟩ ReturnFormat.preview (OsOutcome.finished ⟨0, [128], []⟩)
      = Except.error (PyError.unicodeDecodeError "invalid UTF-8 byte in captured stdout") :=
  exec_capture_raises_on_malformed ⟨"cat moji.bin", 5⟩ ReturnFormat.preview ⟨0, [128], []⟩
    (by decide)

/-- Claim C9: run_command is total — for every command and environment outcome
it returns either a result dict carrying exactly stdout, stderr and returncode,
or an error dict carrying str(e) — and its subprocess call always uses the
literal timeout 5 (it reads neither settings.cmd_timeout nor any caller
timeout). -/
theorem run_command_total_shape_timeout :
    (∀ command : String, (run_commandCall command).timeout = 5)
    ∧ (∀ (command : String) (os : OsOutcome),
        (∃ r, subprocessRun (run_commandCall command) os = Except.ok r ∧
          run_command command os = RunCommandResult.result r.stdout r.stderr r.returncode)
        ∨ (∃ e, subprocessRun (run_commandCall command) os = Except.error e ∧
          run_command command os = RunCommandResult.error (pyErrorStr e))) := by
  refine ⟨fun _ => rfl, fun command os => ?_⟩
  cases hsub : subprocessRun (run_commandCall command) os with
  | ok r => exact Or.inl ⟨r, rfl, by simp [run_command, hsub]⟩
  | error e => exact Or.inr ⟨e, rfl, by simp [run_command, hsub]⟩

/-- Claim C10: the 実行 endpoint's response is identical under any two settings
values (in particular any two max_bytes), and the JSON response of a completed
process carries standard output and standard error in full. -/
theorem exec_ignores_max_bytes :
    (∀ (s1 s2 : Settings) (req : CommandRequest) (fmt : ReturnFormat) (os : OsOutcome),
      «実行Env» s1 req fmt os = «実行Env» s2 req fmt os)
    ∧ (∀ (req : CommandRequest) (r : CompletedProcess),
      «実行Resp» req ReturnFormat.json (Except.ok r)
        = Except.ok (ApiResponse.jsonResponse ⟨some r.returncode, r.stdout, r.stderr⟩)) :=
  ⟨fun _ _ _ _ _ => rfl, fun _ _ => rfl⟩
